import Mathlib

/-!
Shallow embedding of the batfish_vis backend services
(`file_service.py`, `snapshot_api.py`, `topology_service.py`,
`verification_service.py`, `batfish_service.py`) and proofs of the
behavioural claims about them.

Effectful calls into the external Batfish engine are modelled as
`Except String` valued fields of explicit session records; Python
exceptions are `Except.error`, `try/except` blocks are `match` on the
composed `Except` computation.  Filesystem state touched by the upload
intake is tracked explicitly as a `DirState` value.
-/

namespace BatfishVis

/-! ## Python string semantics helpers -/

/-- ASCII whitespace stripped by Python `str.strip()`. -/
def isPySpace (c : Char) : Bool :=
  c == ' ' || c == '\t' || c == '\n' || c == '\r' || c == '\x0b' || c == '\x0c'

/-- Model of Python `str.strip()` (ASCII whitespace). -/
def pyStrip (s : String) : String :=
  String.mk (((s.toList.dropWhile isPySpace).reverse.dropWhile isPySpace).reverse)

/-- Model of `os.path.basename` on POSIX: everything after the last slash. -/
def basename (s : String) : String :=
  String.mk ((s.toList.reverse.takeWhile (fun c => c != '/')).reverse)

/-- Prefix test on character lists (no library dependence). -/
def listStarts : List Char → List Char → Bool
  | [], _ => true
  | _ :: _, [] => false
  | a :: as, b :: bs => a == b && listStarts as bs

/-- Contiguous-sublist test on character lists. -/
def listHasSub (nee : List Char) : List Char → Bool
  | [] => nee.isEmpty
  | c :: rest => listStarts nee (c :: rest) || listHasSub nee rest

/-- Python `needle in haystack` on strings. -/
def strHasSub (hay nee : String) : Bool :=
  listHasSub nee.toList hay.toList

/-- Python `s.startswith(pre)`. -/
def strStarts (s pre : String) : Bool :=
  listStarts pre.toList s.toList

/-- Python `s.lower()` (ASCII). -/
def pyLower (s : String) : String :=
  String.mk (s.toList.map Char.toLower)

/-- Character class `[a-zA-Z0-9_-]` used for snapshot names. -/
def snapshotNameCharOk (c : Char) : Bool :=
  c.isAlpha || c.isDigit || c == '_' || c == '-'

/-- Character class `[a-zA-Z0-9_.-]` used for file names. -/
def filenameCharOk (c : Char) : Bool :=
  c.isAlpha || c.isDigit || c == '_' || c == '.' || c == '-'

/-- Semantics of Python `re.match(r'^[C]+$', s)` for a newline-free class
`C`: the whole string is a nonempty run of class characters, or all of it
except one trailing newline is (Python `$` also matches just before a
final newline). -/
def pyMatchPlusDollar (charOk : Char → Bool) (s : String) : Bool :=
  let cs := s.toList
  (!cs.isEmpty && cs.all charOk) ||
    (match cs.getLast? with
     | some '\n' => !cs.dropLast.isEmpty && cs.dropLast.all charOk
     | _ => false)

/-- Python truthiness of an `Optional[str]`: `None` and `""` are falsy. -/
def pyFalsyName : Option String → Bool
  | none => true
  | some s => s.isEmpty

/-! ## `file_service.py` -/

/-- `FileService.MAX_FILE_SIZE_BYTES` (10 MB). -/
def MAX_FILE_SIZE_BYTES : Nat := 10 * 1024 * 1024

/-- `FileService.MAX_TOTAL_SIZE_BYTES` (100 MB). -/
def MAX_TOTAL_SIZE_BYTES : Nat := 100 * 1024 * 1024

/-- `FileService._sanitize_filename`: reject empty/whitespace names, strip
directory components, enforce the `^[a-zA-Z0-9_.-]+$` pattern on the
basename, reject hidden files. -/
def sanitize_filename (filename : String) : Except String String :=
  if filename.isEmpty || (pyStrip filename).isEmpty then
    .error "Filename cannot be empty"
  else
    let base := basename filename
    if !pyMatchPlusDollar filenameCharOk base then
      .error ("Invalid filename: " ++ base)
    else if strStarts base "." then
      .error ("Hidden files not allowed: " ++ base)
    else
      .ok base

/-- An uploaded file: `UploadFile.filename` is optional, the content is
abstracted to its byte length (`len(content)`). -/
structure UploadFile where
  filename : Option String
  size : Nat
  deriving Repr, DecidableEq

/-- State of the snapshot staging directory. -/
inductive DirState where
  | absent : DirState
  | present : List (String × Nat) → DirState
  deriving Repr, DecidableEq

/-- Writing a file into the directory (`open(..., "wb")` truncates an
existing file of the same name). -/
def writeFile (fs : List (String × Nat)) (name : String) (size : Nat) :
    List (String × Nat) :=
  fs.filter (fun p => p.1 != name) ++ [(name, size)]

/-- The per-file loop body of `save_uploaded_files`: skip files with a
falsy filename, sanitize, enforce the per-file and running-total size
ceilings, then write.  Returns the final directory contents on success. -/
def saveLoop : List UploadFile → List (String × Nat) → Nat →
    Except String (List (String × Nat))
  | [], dirFiles, _ => .ok dirFiles
  | f :: rest, dirFiles, total =>
    if pyFalsyName f.filename then
      saveLoop rest dirFiles total
    else
      match sanitize_filename (f.filename.getD "") with
      | .error e => .error e
      | .ok name =>
        if f.size > MAX_FILE_SIZE_BYTES then
          .error ("File " ++ name ++ " exceeds maximum size limit")
        else if total + f.size > MAX_TOTAL_SIZE_BYTES then
          .error "Total upload size exceeds maximum limit"
        else
          saveLoop rest (writeFile dirFiles name f.size) (total + f.size)

/-- Outcome of `save_uploaded_files`: the returned/raised value plus the
final state of the snapshot staging directory. -/
structure SaveOutcome where
  result : Except String (List (String × Nat))
  dir : DirState
  deriving Repr

/-- A snapshot name whose resolved path would escape the staging root:
an absolute path or a leading parent-directory component.  (Names that
pass the API validation never satisfy this.) -/
def snapshotDirEscapes (name : String) : Bool :=
  strStarts name "/" || name == ".." || strStarts name "../"

/-- `FileService.save_uploaded_files`: validates inputs, creates the
snapshot directory (keeping any pre-existing contents, `exist_ok=True`),
runs the per-file loop, and on any loop failure removes the whole
snapshot directory (`cleanup_snapshot_dir`) and re-raises as `IOError`. -/
def save_uploaded_files (snapshotName : String) (files : List UploadFile)
    (init : DirState) : SaveOutcome :=
  if files.isEmpty then
    ⟨.error "No configuration files provided", init⟩
  else if snapshotName.isEmpty || (pyStrip snapshotName).isEmpty then
    ⟨.error "Snapshot name is required", init⟩
  else if snapshotDirEscapes snapshotName then
    ⟨.error "Invalid snapshot name: path traversal detected", init⟩
  else
    let start : List (String × Nat) :=
      match init with
      | .absent => []
      | .present fs => fs
    match saveLoop files start 0 with
    | .ok fs => ⟨.ok fs, .present fs⟩
    | .error e => ⟨.error ("Failed to save configuration files: " ++ e), .absent⟩

/-! ## `snapshot_api.py` -/

/-- `_validate_snapshot_name`: 400 when the name is empty/too long or
fails `re.match(r"^[a-zA-Z0-9_-]+$", name)`. -/
def validate_snapshot_name (name : String) : Except Nat Unit :=
  if name.isEmpty || name.length < 1 || name.length > 100 then
    .error 400
  else if !pyMatchPlusDollar snapshotNameCharOk name then
    .error 400
  else
    .ok ()

/-! ## Row and cell types for tabular engine answers -/

/-- A pandas cell that may be absent, the float NaN sentinel, or a value
(`nan_to_none` in `topology_service.py` folds the first two to `None`). -/
inductive PCell (α : Type) where
  | absent : PCell α
  | nan : PCell α
  | val : α → PCell α
  deriving Repr, DecidableEq

/-- `nan_to_none` from `get_node_details`. -/
def nanToNone {α : Type} : PCell α → Option α
  | .absent => none
  | .nan => none
  | .val a => some a

/-- A pybatfish `Interface` cell: an object with `hostname` and
`interface` attributes. -/
structure IfaceCell where
  hostname : String
  interface : String
  deriving Repr, DecidableEq

/-- pybatfish `Interface.__str__`: `hostname[interface]`. -/
def ifaceStr (c : IfaceCell) : String :=
  c.hostname ++ "[" ++ c.interface ++ "]"

/-- A pybatfish address cell (`Primary_Address`); `netmask` models the
optional attribute probed by `hasattr`. -/
structure AddrCell where
  text : String
  netmask : Option String
  deriving Repr, DecidableEq

/-- One row of the `nodeProperties` answer. -/
structure NodeRow where
  node : Option String
  vendor : Option String
  model : Option String
  deviceType : Option String
  configFormat : Option String
  deriving Repr, DecidableEq

/-- One row of the `interfaceProperties` answer. -/
structure IfaceRow where
  interface : Option IfaceCell
  active : Option Bool
  primaryAddress : Option AddrCell
  allAddresses : List String
  description : PCell String
  vlan : PCell Int
  accessVlan : PCell Int
  bandwidth : PCell Int
  mtu : PCell Int
  deriving Repr, DecidableEq

/-- One row of the `layer3Edges` answer; the IP columns are dicts keyed
by `str(interface)` when present. -/
structure EdgeRow where
  interface : Option IfaceCell
  remoteInterface : Option IfaceCell
  ips : Option (List (String × String))
  remoteIps : Option (List (String × String))
  deriving Repr, DecidableEq

/-! ## Typed response models (`models/*.py`) -/

/-- `models/device.py` `Device` (visualization coordinates omitted: never
set by the services modelled here). -/
structure Device where
  hostname : String
  vendor : Option String
  model : Option String
  device_type : Option String
  config_format : Option String
  interfaces_count : Nat
  deriving Repr, DecidableEq

/-- `models/interface.py` `Interface`; numeric/description cells are
passed through by `get_interfaces` without NaN conversion. -/
structure TopoInterface where
  hostname : String
  interface_name : String
  active : Bool
  ip_addresses : List String
  subnet_mask : Option String
  description : PCell String
  vlan : PCell Int
  bandwidth : PCell Int
  mtu : PCell Int
  deriving Repr, DecidableEq

/-- `models/edge.py` `Edge`. -/
structure Edge where
  source_hostname : String
  source_interface : String
  target_hostname : String
  target_interface : String
  link_type : String
  source_ip : Option String
  target_ip : Option String
  bandwidth : Option Nat
  protocol : Option String
  deriving Repr, DecidableEq

/-- `models/node_detail.py` `Interface` (the per-node view). -/
structure NodeIface where
  name : String
  active : Bool
  ip_addresses : List String
  description : Option String
  vlan : Option Int
  bandwidth_mbps : Option Int
  mtu : Option Int
  deriving Repr, DecidableEq

/-- `models/node_detail.py` `DeviceMetadata` (`last_updated` timestamp
not modelled). -/
structure DeviceMetadata where
  snapshot_name : String
  config_file_path : Option String
  deriving Repr, DecidableEq

/-- `models/node_detail.py` `NodeDetail`. -/
structure NodeDetail where
  hostname : String
  device_type : Option String
  vendor : Option String
  model : Option String
  os_version : Option String
  config_format : Option String
  status : String
  interface_count : Nat
  interfaces : List NodeIface
  metadata : DeviceMetadata
  deriving Repr, DecidableEq

/-! ## `topology_service.py` -/

/-- `TopologyService._extract_vendor`: explicit vendor lowercased, else a
substring heuristic on the configuration format, else `None`. -/
def extract_vendor (row : NodeRow) : Option String :=
  match row.vendor with
  | some v =>
    if !v.isEmpty then some (pyLower v)
    else extractFromFormat row
  | none => extractFromFormat row
where
  extractFromFormat (row : NodeRow) : Option String :=
    let cf := pyLower (row.configFormat.getD "")
    if strHasSub cf "cisco" || strHasSub cf "ios" then some "cisco"
    else if strHasSub cf "juniper" || strHasSub cf "junos" then some "juniper"
    else if strHasSub cf "arista" || strHasSub cf "eos" then some "arista"
    else if strHasSub cf "paloalto" || strHasSub cf "panos" then some "paloalto"
    else none

/-- `TopologyService._infer_device_type`: hostname substring heuristic. -/
def infer_device_type (row : NodeRow) : Option String :=
  let h := pyLower (row.node.getD "")
  if strHasSub h "router" || strHasSub h "rtr" then some "router"
  else if strHasSub h "switch" || strHasSub h "sw" then some "switch"
  else if strHasSub h "firewall" || strHasSub h "fw" then some "firewall"
  else none

/-- `TopologyService._extract_ip_addresses`: primary address if truthy,
else the all-addresses collection, else empty. -/
def extract_ip_addresses (row : IfaceRow) : List String :=
  match row.primaryAddress with
  | some a => [a.text]
  | none =>
    if !row.allAddresses.isEmpty then row.allAddresses
    else []

/-- `TopologyService._extract_subnet_mask`: netmask attribute of the
primary address when it exists. -/
def extract_subnet_mask (row : IfaceRow) : Option String :=
  match row.primaryAddress with
  | some a => a.netmask
  | none => none

/-- The row-to-`Device` mapping of `get_devices`; `interfaces_count` is
hard-coded to `0` there. -/
def parse_devices (rows : List NodeRow) : List Device :=
  rows.map (fun row =>
    { hostname := row.node.getD ""
      vendor := extract_vendor row
      model := row.model
      device_type := infer_device_type row
      config_format := row.configFormat
      interfaces_count := 0 })

/-- The row-to-`Interface` mapping of `get_interfaces`. -/
def parse_interfaces (rows : List IfaceRow) : List TopoInterface :=
  rows.map (fun row =>
    { hostname := match row.interface with | some c => c.hostname | none => ""
      interface_name := match row.interface with | some c => c.interface | none => ""
      active := row.active.getD true
      ip_addresses := extract_ip_addresses row
      subnet_mask := extract_subnet_mask row
      description := row.description
      vlan := row.vlan
      bandwidth := row.bandwidth
      mtu := row.mtu })

/-- The row-to-`Edge` mapping of `get_layer3_edges`: rows with a falsy
`Interface` or `Remote_Interface` cell are skipped; per-endpoint IPs are
looked up in the side-keyed dicts under `str(interface)`. -/
def parse_layer3_edges (rows : List EdgeRow) : List Edge :=
  rows.filterMap (fun row =>
    match row.interface, row.remoteInterface with
    | some i1, some i2 =>
      some
        { source_hostname := i1.hostname
          source_interface := i1.interface
          target_hostname := i2.hostname
          target_interface := i2.interface
          link_type := "layer3"
          source_ip := row.ips.bind (fun m => m.lookup (ifaceStr i1))
          target_ip := row.remoteIps.bind (fun m => m.lookup (ifaceStr i2))
          bandwidth := none
          protocol := none }
    | _, _ => none)

/-- Association-list lookup modelling Python `dict.get` for the
string-keyed count dict. -/
def dictGet : List (String × Nat) → String → Option Nat
  | [], _ => none
  | (k, v) :: rest, h =>
    match k == h with
    | true => some v
    | false => dictGet rest h

/-- One step of the `interface_counts` dict construction in
`get_topology`: `counts[h] = counts.get(h, 0) + 1`. -/
def addCount (m : List (String × Nat)) (h : String) : List (String × Nat) :=
  match dictGet m h with
  | some n => m.map (fun p => if p.1 == h then (p.1, n + 1) else p)
  | none => m ++ [(h, 1)]

/-- The `interface_counts` dict of `get_topology`, built by iterating
over the fetched interface list. -/
def interfaceCounts (ifaces : List TopoInterface) : List (String × Nat) :=
  ifaces.foldl (fun m i => addCount m i.hostname) []

/-- The count-overwriting step of `get_topology`:
`device.interfaces_count = interface_counts.get(device.hostname, 0)`. -/
def update_interface_counts (devices : List Device)
    (ifaces : List TopoInterface) : List Device :=
  let counts := interfaceCounts ifaces
  devices.map (fun d => { d with interfaces_count := (dictGet counts d.hostname).getD 0 })

/-- The engine session as used by `TopologyService`: each effectful call
either returns rows or raises (`Except.error`). -/
structure TopoSession where
  setNetwork : String → Except String Unit
  setSnapshot : String → Except String Unit
  nodePropertiesAll : Except String (List NodeRow)
  nodePropertiesFor : String → Except String (List NodeRow)
  interfacePropertiesAll : Except String (List IfaceRow)
  interfacePropertiesFor : String → Except String (List IfaceRow)
  layer3Edges : Except String (List EdgeRow)

/-- `TopologyService.get_devices`: select network+snapshot, query node
properties, map rows; any exception is wrapped as `BatfishException`. -/
def get_devices (sess : TopoSession) (snapshotName networkName : String) :
    Except String (List Device) :=
  match (do
      sess.setNetwork networkName
      sess.setSnapshot snapshotName
      sess.nodePropertiesAll : Except String (List NodeRow)) with
  | .ok rows => .ok (parse_devices rows)
  | .error e => .error ("Failed to retrieve devices: " ++ e)

/-- `TopologyService.get_interfaces` (optionally filtered by hostname). -/
def get_interfaces (sess : TopoSession) (snapshotName networkName : String)
    (hostname : Option String) : Except String (List TopoInterface) :=
  match (do
      sess.setNetwork networkName
      sess.setSnapshot snapshotName
      match hostname with
      | some h => sess.interfacePropertiesFor h
      | none => sess.interfacePropertiesAll : Except String (List IfaceRow)) with
  | .ok rows => .ok (parse_interfaces rows)
  | .error e => .error ("Failed to retrieve interfaces: " ++ e)

/-- `TopologyService.get_layer3_edges`. -/
def get_layer3_edges (sess : TopoSession) (snapshotName networkName : String) :
    Except String (List Edge) :=
  match (do
      sess.setNetwork networkName
      sess.setSnapshot snapshotName
      sess.layer3Edges : Except String (List EdgeRow)) with
  | .ok rows => .ok (parse_layer3_edges rows)
  | .error e => .error ("Failed to retrieve topology edges: " ++ e)

/-- The `{nodes, edges}` aggregate of `get_topology`. -/
structure Topology where
  nodes : List Device
  edges : List Edge
  deriving Repr, DecidableEq

/-- `TopologyService.get_topology`: fetch devices, edges and interfaces,
then overwrite each device's `interfaces_count` from the interface list
grouped by hostname. -/
def get_topology (sess : TopoSession) (snapshotName networkName : String) :
    Except String Topology :=
  match (do
      let devices ← get_devices sess snapshotName networkName
      let edges ← get_layer3_edges sess snapshotName networkName
      let interfaces ← get_interfaces sess snapshotName networkName none
      pure (update_interface_counts devices interfaces, edges) :
        Except String (List Device × List Edge)) with
  | .ok (nodes, edges) => .ok { nodes := nodes, edges := edges }
  | .error e => .error ("Failed to retrieve complete topology: " ++ e)

/-- The row-to-node-detail-`Interface` mapping inside `get_node_details`:
NaN cells become `None`, `Active` defaults to `False`, the name falls
back to `str()` of the default empty-dict cell. -/
def mkNodeIface (row : IfaceRow) : NodeIface :=
  { name := match row.interface with | some c => c.interface | none => "\x7b\x7d"
    active := row.active.getD false
    ip_addresses := extract_ip_addresses row
    description := nanToNone row.description
    vlan := nanToNone row.accessVlan
    bandwidth_mbps := nanToNone row.bandwidth
    mtu := nanToNone row.mtu }

/-- The status derivation in `get_node_details`: `"unknown"` for an empty
interface list, else `"active"`/`"inactive"` by `any(iface.active)`. -/
def derive_status (interfaces : List NodeIface) : String :=
  if interfaces.isEmpty then "unknown"
  else if interfaces.any (fun i => i.active) then "active"
  else "inactive"

/-- Errors escaping `get_node_details`: the re-raised `KeyError` or a
wrapping `BatfishException`. -/
inductive NodeErr where
  | notFound : String → NodeErr
  | batfish : String → NodeErr
  deriving Repr, DecidableEq

/-- `TopologyService.get_node_details`: select context, query node
properties for the hostname, raise `KeyError` on zero rows, else query
the node's interfaces, map them, derive status, and build the
`NodeDetail` with `interface_count = len(interfaces)`. -/
def get_node_details (sess : TopoSession)
    (snapshotName hostname networkName : String) : Except NodeErr NodeDetail :=
  match sess.setNetwork networkName with
  | .error e => .error (.batfish ("Failed to retrieve node details: " ++ e))
  | .ok _ =>
  match sess.setSnapshot snapshotName with
  | .error e => .error (.batfish ("Failed to retrieve node details: " ++ e))
  | .ok _ =>
  match sess.nodePropertiesFor hostname with
  | .error e => .error (.batfish ("Failed to retrieve node details: " ++ e))
  | .ok nodesRows =>
    match nodesRows with
    | [] =>
      .error (.notFound
        ("Node '" ++ hostname ++ "' not found in snapshot '" ++ snapshotName ++ "'"))
    | nodeRow :: _ =>
      match sess.interfacePropertiesFor hostname with
      | .error e => .error (.batfish ("Failed to retrieve node details: " ++ e))
      | .ok ifaceRows =>
        let interfaces := ifaceRows.map mkNodeIface
        .ok
          { hostname := hostname
            device_type := nodeRow.deviceType
            vendor := nodeRow.vendor
            model := nodeRow.model
            os_version := none
            config_format := nodeRow.configFormat
            status := derive_status interfaces
            interface_count := interfaces.length
            interfaces := interfaces
            metadata := { snapshot_name := snapshotName, config_file_path := none } }

/-! ## `verification_service.py` -/

/-- A hop object from a reachability trace; `getattr` defaults apply for
absent attributes. -/
structure HopObj where
  node : Option String
  action : Option String
  interface_in : Option String
  interface_out : Option String
  deriving Repr, DecidableEq

/-- A trace object (`Trace` cell) carrying a hop list. -/
structure TraceObj where
  hops : List HopObj
  deriving Repr, DecidableEq

/-- One row of the reachability answer. -/
structure FlowRow where
  trace : Option TraceObj
  outcome : Option String
  deriving Repr, DecidableEq

/-- One row of the `searchFilters` answer. -/
structure AclRow where
  node : Option String
  filterName : Option String
  action : Option String
  lineIndex : Option Int
  lineContent : Option String
  deriving Repr, DecidableEq

/-- One row of the `routes` answer. -/
structure RouteRow where
  node : Option String
  network : Option String
  nextHopIp : Option String
  protocol : Option String
  adminDistance : Option Int
  metric : Option Int
  nextHopInterface : Option String
  deriving Repr, DecidableEq

/-- `models/verification.py` `FlowTraceHop`. -/
structure FlowTraceHop where
  node : String
  action : String
  interface_in : Option String
  interface_out : Option String
  deriving Repr, DecidableEq

/-- `models/verification.py` `FlowTrace`. -/
structure FlowTrace where
  disposition : String
  hops : List FlowTraceHop
  deriving Repr, DecidableEq

/-- `models/verification.py` `ACLMatchResult`. -/
structure ACLMatchResult where
  node : String
  filter_name : String
  action : String
  line_number : Option Int
  line_content : Option String
  deriving Repr, DecidableEq

/-- `models/verification.py` `RouteEntry`. -/
structure RouteEntry where
  node : String
  network : String
  next_hop : Option String
  protocol : String
  admin_distance : Option Int
  metric : Option Int
  interface : Option String
  deriving Repr, DecidableEq

/-- A value in the echoed `parameters` dict. -/
inductive PVal where
  | null : PVal
  | str : String → PVal
  | strs : List String → PVal
  deriving Repr, DecidableEq

/-- An `Optional[str]` parameter as stored in the `parameters` dict. -/
def PVal.ofOpt : Option String → PVal
  | none => .null
  | some s => .str s

/-- `models/verification.py` `VerificationResult`. -/
structure VerificationResult where
  query_id : String
  query_type : String
  parameters : List (String × PVal)
  status : String
  execution_time_ms : Nat
  flow_traces : Option (List FlowTrace)
  acl_results : Option (List ACLMatchResult)
  route_entries : Option (List RouteEntry)
  error_message : Option String
  deriving Repr, DecidableEq

/-- `VerificationService._parse_flow_traces`. -/
def parse_flow_traces (rows : List FlowRow) : List FlowTrace :=
  rows.map (fun row =>
    { disposition := row.outcome.getD "UNKNOWN"
      hops :=
        match row.trace with
        | some t =>
          t.hops.map (fun hop =>
            { node := hop.node.getD "unknown"
              action := hop.action.getD "UNKNOWN"
              interface_in := hop.interface_in
              interface_out := hop.interface_out })
        | none => [] })

/-- `VerificationService._parse_acl_results`. -/
def parse_acl_results (rows : List AclRow) : List ACLMatchResult :=
  rows.map (fun row =>
    { node := row.node.getD "unknown"
      filter_name := row.filterName.getD "unknown"
      action := row.action.getD "UNKNOWN"
      line_number := row.lineIndex
      line_content := row.lineContent })

/-- `VerificationService._parse_route_entries`. -/
def parse_route_entries (rows : List RouteRow) : List RouteEntry :=
  rows.map (fun row =>
    { node := row.node.getD "unknown"
      network := row.network.getD "unknown"
      next_hop := row.nextHopIp
      protocol := row.protocol.getD "UNKNOWN"
      admin_distance := row.adminDistance
      metric := row.metric
      interface := row.nextHopInterface })

/-- The engine session as used by `VerificationService`. -/
structure BfVSession where
  setNetwork : String → Except String Unit
  setSnapshot : String → Except String Unit
  reachabilityQ : Option String → String → String → Except String (List FlowRow)
  searchFiltersQ : String → String → String → Option String → Except String (List AclRow)
  routesQ : Option String → Option String → Except String (List RouteRow)

/-- The fallible part of `verify_reachability` (context selection, query
dispatch, answer frame). -/
def reachSteps (sess : BfVSession) (snapshotName srcIp dstIp networkName : String)
    (srcNode : Option String) : Except String (List FlowRow) := do
  sess.setNetwork networkName
  sess.setSnapshot snapshotName
  sess.reachabilityQ srcNode srcIp dstIp

/-- The fallible part of `verify_acl`. -/
def aclSteps (sess : BfVSession)
    (snapshotName filterName srcIp dstIp networkName : String)
    (protocol : Option String) : Except String (List AclRow) := do
  sess.setNetwork networkName
  sess.setSnapshot snapshotName
  sess.searchFiltersQ filterName srcIp dstIp protocol

/-- The fallible part of `verify_routing`; node lists are joined with
commas before dispatch. -/
def routeSteps (sess : BfVSession) (snapshotName networkName : String)
    (nodes : Option (List String)) (networkFilter : Option String) :
    Except String (List RouteRow) := do
  sess.setNetwork networkName
  sess.setSnapshot snapshotName
  sess.routesQ (nodes.map (String.intercalate ",")) networkFilter

/-- The echoed parameter dict of `verify_reachability`. -/
def reachParams (snapshotName srcIp dstIp : String) (srcNode : Option String) :
    List (String × PVal) :=
  [("snapshot", .str snapshotName), ("src_ip", .str srcIp),
   ("dst_ip", .str dstIp), ("src_node", PVal.ofOpt srcNode)]

/-- `VerificationService.verify_reachability`: the whole body is one
`try/except`; success builds a SUCCESS record carrying the parsed flow
traces, any exception builds a FAILED record carrying the fault text. -/
def verify_reachability (sess : BfVSession)
    (snapshotName srcIp dstIp networkName : String) (srcNode : Option String)
    (queryId : String) (execMs : Nat) : VerificationResult :=
  match reachSteps sess snapshotName srcIp dstIp networkName srcNode with
  | .ok rows =>
    { query_id := queryId, query_type := "reachability"
      parameters := reachParams snapshotName srcIp dstIp srcNode
      status := "SUCCESS", execution_time_ms := execMs
      flow_traces := some (parse_flow_traces rows)
      acl_results := none, route_entries := none, error_message := none }
  | .error e =>
    { query_id := queryId, query_type := "reachability"
      parameters := reachParams snapshotName srcIp dstIp srcNode
      status := "FAILED", execution_time_ms := execMs
      flow_traces := none, acl_results := none, route_entries := none
      error_message := some e }

/-- The echoed parameter dict of `verify_acl`. -/
def aclParams (snapshotName filterName srcIp dstIp : String)
    (protocol : Option String) : List (String × PVal) :=
  [("snapshot", .str snapshotName), ("filter_name", .str filterName),
   ("src_ip", .str srcIp), ("dst_ip", .str dstIp),
   ("protocol", PVal.ofOpt protocol)]

/-- `VerificationService.verify_acl`. -/
def verify_acl (sess : BfVSession)
    (snapshotName filterName srcIp dstIp networkName : String)
    (protocol : Option String) (queryId : String) (execMs : Nat) :
    VerificationResult :=
  match aclSteps sess snapshotName filterName srcIp dstIp networkName protocol with
  | .ok rows =>
    { query_id := queryId, query_type := "acl"
      parameters := aclParams snapshotName filterName srcIp dstIp protocol
      status := "SUCCESS", execution_time_ms := execMs
      flow_traces := none, acl_results := some (parse_acl_results rows)
      route_entries := none, error_message := none }
  | .error e =>
    { query_id := queryId, query_type := "acl"
      parameters := aclParams snapshotName filterName srcIp dstIp protocol
      status := "FAILED", execution_time_ms := execMs
      flow_traces := none, acl_results := none, route_entries := none
      error_message := some e }

/-- The echoed parameter dict of `verify_routing`. -/
def routeParams (snapshotName : String) (nodes : Option (List String))
    (networkFilter : Option String) : List (String × PVal) :=
  [("snapshot", .str snapshotName),
   ("nodes", match nodes with | none => .null | some ns => .strs ns),
   ("network_filter", PVal.ofOpt networkFilter)]

/-- `VerificationService.verify_routing`. -/
def verify_routing (sess : BfVSession) (snapshotName networkName : String)
    (nodes : Option (List String)) (networkFilter : Option String)
    (queryId : String) (execMs : Nat) : VerificationResult :=
  match routeSteps sess snapshotName networkName nodes networkFilter with
  | .ok rows =>
    { query_id := queryId, query_type := "routing"
      parameters := routeParams snapshotName nodes networkFilter
      status := "SUCCESS", execution_time_ms := execMs
      flow_traces := none, acl_results := none
      route_entries := some (parse_route_entries rows)
      error_message := none }
  | .error e =>
    { query_id := queryId, query_type := "routing"
      parameters := routeParams snapshotName nodes networkFilter
      status := "FAILED", execution_time_ms := execMs
      flow_traces := none, acl_results := none, route_entries := none
      error_message := some e }

/-- Request traceability fields of a `VerificationResult`: generated
query id, query type tag, echoed parameters, measured duration. -/
def echoOk (r : VerificationResult) (queryType : String)
    (params : List (String × PVal)) (queryId : String) (execMs : Nat) : Prop :=
  r.query_id = queryId ∧ r.query_type = queryType ∧
  r.parameters = params ∧ r.execution_time_ms = execMs

/-- Shape of a FAILED verification record: fault text captured, no
payload populated. -/
def failedShape (r : VerificationResult) (e : String) : Prop :=
  r.status = "FAILED" ∧ r.error_message = some e ∧
  r.flow_traces = none ∧ r.acl_results = none ∧ r.route_entries = none

/-! ## `batfish_service.py` `health_check` -/

/-- An HTTP response from the version endpoint with its parsed JSON
object. -/
structure HttpResp where
  statusCode : Nat
  body : List (String × String)
  deriving Repr, DecidableEq

/-- The environment `health_check` runs in: session creation, the direct
HTTP version request, and `get_info()` introspection, each fallible. -/
structure HealthEnv where
  sessionOk : Except String Unit
  httpVersion : Except String HttpResp
  getInfo : Except String (List (String × String))

/-- The `/health` payload. -/
structure HealthReport where
  status : String
  apiVersion : String
  batfishVersion : String
  deriving Repr, DecidableEq

/-- The `get_info()` fallback of `health_check`: key `Batfish version`,
then key `version`, default `"unknown"`. -/
def get_info_version (info : List (String × String)) : String :=
  let bv := (info.lookup "Batfish version").getD "unknown"
  if bv == "unknown" then (info.lookup "version").getD "unknown"
  else bv

/-- `BatfishService.health_check`: session creation failure raises; the
version is then taken from the HTTP endpoint when it answers 200 (key
`version`, default `"unknown"`), is left `"unknown"` on a non-200
answer, and only when the HTTP request itself raises falls back to
`get_info()` (keys `Batfish version` then `version`) and finally to the
static value `2025.07.07.2423`. -/
def health_check (env : HealthEnv) : Except String HealthReport :=
  match env.sessionOk with
  | .error _ => .error "Batfish health check failed"
  | .ok _ =>
    let batfishVersion :=
      match env.httpVersion with
      | .ok resp =>
        if resp.statusCode == 200 then (resp.body.lookup "version").getD "unknown"
        else "unknown"
      | .error _ =>
        match env.getInfo with
        | .ok info => get_info_version info
        | .error _ => "2025.07.07.2423"
    .ok { status := "healthy", apiVersion := "1.0.0", batfishVersion := batfishVersion }

/-- Decidable equality on `Except` values (used to evaluate embedded
functions on concrete inputs). -/
instance exceptDecEq {ε α : Type} [DecidableEq ε] [DecidableEq α] :
    DecidableEq (Except ε α) := fun x y =>
  match x, y with
  | .ok a, .ok b =>
    if h : a = b then isTrue (by rw [h]) else isFalse (fun hh => h (Except.ok.inj hh))
  | .error a, .error b =>
    if h : a = b then isTrue (by rw [h]) else isFalse (fun hh => h (Except.error.inj hh))
  | .ok _, .error _ => isFalse (fun hh => Except.noConfusion hh)
  | .error _, .ok _ => isFalse (fun hh => Except.noConfusion hh)

/-! ## Concrete instances used to instantiate the theorems -/

/-- A verification session whose network selection raises. -/
def failNetSession : BfVSession :=
  { setNetwork := fun _ => .error "connection refused"
    setSnapshot := fun _ => .ok ()
    reachabilityQ := fun _ _ _ => .ok []
    searchFiltersQ := fun _ _ _ _ => .ok []
    routesQ := fun _ _ => .ok [] }

/-- A topology session that selects contexts fine but knows no nodes. -/
def emptyTopoSession : TopoSession :=
  { setNetwork := fun _ => .ok ()
    setSnapshot := fun _ => .ok ()
    nodePropertiesAll := .ok []
    nodePropertiesFor := fun _ => .ok []
    interfacePropertiesAll := .ok []
    interfacePropertiesFor := fun _ => .ok []
    layer3Edges := .ok [] }

/-- A layer-3 edge row whose two endpoint cells name the same interface. -/
def selfLoopRow : EdgeRow :=
  { interface := some ⟨"r1", "Gig0"⟩
    remoteInterface := some ⟨"r1", "Gig0"⟩
    ips := none
    remoteIps := none }

/-- The edge the normalizer produces from `selfLoopRow`. -/
def selfLoopEdge : Edge :=
  { source_hostname := "r1", source_interface := "Gig0"
    target_hostname := "r1", target_interface := "Gig0"
    link_type := "layer3", source_ip := none, target_ip := none
    bandwidth := none, protocol := none }

/-- A well-formed layer-3 edge row between two distinct interfaces. -/
def twoEndedRow : EdgeRow :=
  { interface := some ⟨"r1", "Gig0"⟩
    remoteInterface := some ⟨"r2", "Gig1"⟩
    ips := some [("r1[Gig0]", "10.0.0.1")]
    remoteIps := some [("r2[Gig1]", "10.0.0.2")] }

/-- The edge the normalizer produces from `twoEndedRow`. -/
def twoEndedEdge : Edge :=
  { source_hostname := "r1", source_interface := "Gig0"
    target_hostname := "r2", target_interface := "Gig1"
    link_type := "layer3", source_ip := some "10.0.0.1"
    target_ip := some "10.0.0.2", bandwidth := none, protocol := none }

/-- A health environment where the version endpoint answers 500 while
`get_info()` would report a live version. -/
def http500Env : HealthEnv :=
  { sessionOk := .ok ()
    httpVersion := .ok ⟨500, []⟩
    getInfo := .ok [("Batfish version", "2099.01.01")] }

/-- A health environment where the HTTP request raises and `get_info()`
answers. -/
def httpDownEnv : HealthEnv :=
  { sessionOk := .ok ()
    httpVersion := .error "timeout"
    getInfo := .ok [("Batfish version", "2099.01.01")] }

/-- Eleven named 10 MB files: each passes the strict per-file check but
the running total exceeds the cumulative ceiling. -/
def elevenBigFiles : List UploadFile :=
  List.replicate 11 ⟨some "c.cfg", 10485760⟩

/-- A node-inventory row with explicit vendor and format. -/
def ciscoRow : NodeRow :=
  { node := some "r1", vendor := some "Cisco", model := some "ISR"
    deviceType := none, configFormat := some "CISCO_IOS" }

/-- The device `parse_devices` produces from `ciscoRow`. -/
def ciscoDevice : Device :=
  { hostname := "r1", vendor := some "cisco", model := some "ISR"
    device_type := none, config_format := some "CISCO_IOS"
    interfaces_count := 0 }

/-! ## Theorems -/

/-- C1: every verification query (reachability, ACL, routing) returns a
well-formed `VerificationResult` in both outcomes: the generated query
id, query type, echoed parameters and measured duration are always
present; when any step of context selection / dispatch / answer
handling raises, the record has status FAILED, the fault text in
`error_message`, and none of the three payloads; on success the status
is SUCCESS and exactly the payload matching the query type is
populated. -/
theorem c1_verification_failures_captured (sess : BfVSession)
    (snapshotName srcIp dstIp filterName networkName : String)
    (srcNode protocol : Option String) (nodes : Option (List String))
    (networkFilter : Option String) (queryId : String) (execMs : Nat) :
    (echoOk (verify_reachability sess snapshotName srcIp dstIp networkName srcNode queryId execMs)
        "reachability" (reachParams snapshotName srcIp dstIp srcNode) queryId execMs ∧
      (∀ e, reachSteps sess snapshotName srcIp dstIp networkName srcNode = .error e →
        failedShape (verify_reachability sess snapshotName srcIp dstIp networkName srcNode queryId execMs) e) ∧
      (∀ rows, reachSteps sess snapshotName srcIp dstIp networkName srcNode = .ok rows →
        (verify_reachability sess snapshotName srcIp dstIp networkName srcNode queryId execMs).status = "SUCCESS" ∧
        (verify_reachability sess snapshotName srcIp dstIp networkName srcNode queryId execMs).error_message = none ∧
        (verify_reachability sess snapshotName srcIp dstIp networkName srcNode queryId execMs).flow_traces = some (parse_flow_traces rows) ∧
        (verify_reachability sess snapshotName srcIp dstIp networkName srcNode queryId execMs).acl_results = none ∧
        (verify_reachability sess snapshotName srcIp dstIp networkName srcNode queryId execMs).route_entries = none)) ∧
    (echoOk (verify_acl sess snapshotName filterName srcIp dstIp networkName protocol queryId execMs)
        "acl" (aclParams snapshotName filterName srcIp dstIp protocol) queryId execMs ∧
      (∀ e, aclSteps sess snapshotName filterName srcIp dstIp networkName protocol = .error e →
        failedShape (verify_acl sess snapshotName filterName srcIp dstIp networkName protocol queryId execMs) e) ∧
      (∀ rows, aclSteps sess snapshotName filterName srcIp dstIp networkName protocol = .ok rows →
        (verify_acl sess snapshotName filterName srcIp dstIp networkName protocol queryId execMs).status = "SUCCESS" ∧
        (verify_acl sess snapshotName filterName srcIp dstIp networkName protocol queryId execMs).error_message = none ∧
        (verify_acl sess snapshotName filterName srcIp dstIp networkName protocol queryId execMs).acl_results = some (parse_acl_results rows) ∧
        (verify_acl sess snapshotName filterName srcIp dstIp networkName protocol queryId execMs).flow_traces = none ∧
        (verify_acl sess snapshotName filterName srcIp dstIp networkName protocol queryId execMs).route_entries = none)) ∧
    (echoOk (verify_routing sess snapshotName networkName nodes networkFilter queryId execMs)
        "routing" (routeParams snapshotName nodes networkFilter) queryId execMs ∧
      (∀ e, routeSteps sess snapshotName networkName nodes networkFilter = .error e →
        failedShape (verify_routing sess snapshotName networkName nodes networkFilter queryId execMs) e) ∧
      (∀ rows, routeSteps sess snapshotName networkName nodes networkFilter = .ok rows →
        (verify_routing sess snapshotName networkName nodes networkFilter queryId execMs).status = "SUCCESS" ∧
        (verify_routing sess snapshotName networkName nodes networkFilter queryId execMs).error_message = none ∧
        (verify_routing sess snapshotName networkName nodes networkFilter queryId execMs).route_entries = some (parse_route_entries rows) ∧
        (verify_routing sess snapshotName networkName nodes networkFilter queryId execMs).flow_traces = none ∧
        (verify_routing sess snapshotName networkName nodes networkFilter queryId execMs).acl_results = none)) := by
  refine ⟨?_, ?_, ?_⟩
  · cases h : reachSteps sess snapshotName srcIp dstIp networkName srcNode with
    | ok rows => simp [verify_reachability, h, echoOk, failedShape]
    | error e => simp [verify_reachability, h, echoOk, failedShape]
  · cases h : aclSteps sess snapshotName filterName srcIp dstIp networkName protocol with
    | ok rows => simp [verify_acl, h, echoOk, failedShape]
    | error e => simp [verify_acl, h, echoOk, failedShape]
  · cases h : routeSteps sess snapshotName networkName nodes networkFilter with
    | ok rows => simp [verify_routing, h, echoOk, failedShape]
    | error e => simp [verify_routing, h, echoOk, failedShape]

/-- Witness for C1: a session whose network selection raises produces a
FAILED reachability record with the fault text and no payloads. -/
theorem c1_witness :
    failedShape
      (verify_reachability failNetSession "s1" "10.0.0.1" "10.0.0.2" "default" none "q1" 7)
      "connection refused" :=
  (c1_verification_failures_captured failNetSession "s1" "10.0.0.1" "10.0.0.2"
    "f" "default" none none none none "q1" 7).1.2.1 "connection refused" rfl

/-- A successful sanitization returns the basename of the supplied
name. -/
theorem sanitize_ok_basename {fn name : String}
    (h : sanitize_filename fn = .ok name) : name = basename fn := by
  unfold sanitize_filename at h
  dsimp only at h
  split at h
  · cases h
  · split at h
    · cases h
    · split at h
      · cases h
      · cases h
        rfl

/-- If some file in the list has a truthy filename that the sanitizer
rejects, the save loop raises. -/
theorem saveLoop_error_of_bad {files : List UploadFile}
    (dirFiles : List (String × Nat)) (total : Nat)
    (hbad : ∃ f ∈ files, ∃ fn, f.filename = some fn ∧ fn.isEmpty = false ∧
      ∃ msg, sanitize_filename fn = .error msg) :
    ∃ e, saveLoop files dirFiles total = .error e := by
  induction files generalizing dirFiles total with
  | nil =>
    rcases hbad with ⟨f, hf, _⟩
    cases hf
  | cons f rest ih =>
    rcases hbad with ⟨g, hg, fn, hfn, hne, msg, herr⟩
    by_cases hfalsy : pyFalsyName f.filename = true
    · have hg' : g ∈ rest := by
        rcases List.mem_cons.mp hg with rfl | hmem
        · exfalso
          rw [hfn] at hfalsy
          simp only [pyFalsyName] at hfalsy
          rw [hne] at hfalsy
          cases hfalsy
        · exact hmem
      obtain ⟨e, he⟩ := ih dirFiles total ⟨g, hg', fn, hfn, hne, msg, herr⟩
      exact ⟨e, by simpa [saveLoop, hfalsy] using he⟩
    · cases hs : sanitize_filename (f.filename.getD "") with
      | error e => exact ⟨e, by simp [saveLoop, hfalsy, hs]⟩
      | ok name =>
        by_cases hsz : f.size > MAX_FILE_SIZE_BYTES
        · exact ⟨"File " ++ name ++ " exceeds maximum size limit",
            by simp [saveLoop, hfalsy, hs, hsz]⟩
        · by_cases htot : total + f.size > MAX_TOTAL_SIZE_BYTES
          · exact ⟨"Total upload size exceeds maximum limit",
              by simp [saveLoop, hfalsy, hs, hsz, htot]⟩
          · have hg' : g ∈ rest := by
              rcases List.mem_cons.mp hg with rfl | hmem
              · exfalso
                rw [hfn] at hs
                simp only [Option.getD_some] at hs
                rw [herr] at hs
                cases hs
              · exact hmem
            obtain ⟨e, he⟩ := ih (writeFile dirFiles name f.size) (total + f.size)
              ⟨g, hg', fn, hfn, hne, msg, herr⟩
            exact ⟨e, by simpa [saveLoop, hfalsy, hs, hsz, htot] using he⟩

/-- Every file name present after a successful save loop either was
already in the directory or is the basename of some supplied name. -/
theorem saveLoop_ok_names {files : List UploadFile}
    {dirFiles fs : List (String × Nat)} {total : Nat}
    (h : saveLoop files dirFiles total = .ok fs) :
    ∀ p ∈ fs, p ∈ dirFiles ∨
      ∃ f ∈ files, ∃ fn, f.filename = some fn ∧ p.1 = basename fn := by
  induction files generalizing dirFiles total with
  | nil =>
    simp only [saveLoop, Except.ok.injEq] at h
    subst h
    exact fun p hp => .inl hp
  | cons f rest ih =>
    by_cases hfalsy : pyFalsyName f.filename = true
    · have h' : saveLoop rest dirFiles total = .ok fs := by
        simpa [saveLoop, hfalsy] using h
      intro p hp
      rcases ih h' p hp with hmem | ⟨g, hg, fn, hfn, hbn⟩
      · exact .inl hmem
      · exact .inr ⟨g, List.mem_cons_of_mem _ hg, fn, hfn, hbn⟩
    · cases hs : sanitize_filename (f.filename.getD "") with
      | error e =>
        simp [saveLoop, hfalsy, hs] at h
      | ok name =>
        by_cases hsz : f.size > MAX_FILE_SIZE_BYTES
        · simp [saveLoop, hfalsy, hs, hsz] at h
        · by_cases htot : total + f.size > MAX_TOTAL_SIZE_BYTES
          · simp [saveLoop, hfalsy, hs, hsz, htot] at h
          · have h' : saveLoop rest (writeFile dirFiles name f.size) (total + f.size)
                = .ok fs := by
              simpa [saveLoop, hfalsy, hs, hsz, htot] using h
            intro p hp
            rcases ih h' p hp with hmem | ⟨g, hg, fn, hfn, hbn⟩
            · unfold writeFile at hmem
              rcases List.mem_append.mp hmem with h1 | h2
              · exact .inl (List.mem_of_mem_filter h1)
              · have hp2 : p = (name, f.size) := by simpa using h2
                obtain ⟨fn0, hfn0⟩ : ∃ fn0, f.filename = some fn0 := by
                  cases hf : f.filename with
                  | none =>
                    rw [hf] at hfalsy
                    exact absurd rfl hfalsy
                  | some s => exact ⟨s, rfl⟩
                have hname : name = basename fn0 := by
                  refine sanitize_ok_basename ?_
                  rw [hfn0, Option.getD_some] at hs
                  exact hs
                refine .inr ⟨f, List.mem_cons_self f rest, fn0, hfn0, ?_⟩
                rw [hp2]
                exact hname
            · exact .inr ⟨g, List.mem_cons_of_mem _ hg, fn, hfn, hbn⟩

/-- Counterexample to C2 as stated: a batch whose single filename
contains a path separator is accepted, not rejected — the directory
component is stripped and the file is stored under its basename. -/
theorem c2_counterexample :
    (save_uploaded_files "snap1" [⟨some "configs/r1.cfg", 5⟩] .absent).result
        = .ok [("r1.cfg", 5)] ∧
    (save_uploaded_files "snap1" [⟨some "configs/r1.cfg", 5⟩] .absent).dir
        = .present [("r1.cfg", 5)] ∧
    strHasSub "configs/r1.cfg" "/" = true := by
  refine ⟨by decide, by decide, by decide⟩

/-- C2 (amended): directory components of a supplied name are stripped
first; when some file's truthy name is rejected by the sanitizer (its
basename fails the character check or starts with a dot), the whole
batch errors and no partial staging directory is left behind; every
stored file name is the basename of a supplied name. -/
theorem c2_batch_reject_and_strip (snapshotName : String)
    (files : List UploadFile) (init : DirState) :
    ((∃ f ∈ files, ∃ fn, f.filename = some fn ∧ fn.isEmpty = false ∧
        ∃ msg, sanitize_filename fn = .error msg) →
      (∃ err, (save_uploaded_files snapshotName files init).result = .error err) ∧
      ((save_uploaded_files snapshotName files init).dir = .absent ∨
        (save_uploaded_files snapshotName files init).dir = init)) ∧
    (∀ fs, (save_uploaded_files snapshotName files init).result = .ok fs →
      init = .absent →
      ∀ p ∈ fs, ∃ f ∈ files, ∃ fn, f.filename = some fn ∧ p.1 = basename fn) := by
  constructor
  · intro hbad
    by_cases h1 : files.isEmpty = true
    · exact ⟨⟨"No configuration files provided", by simp [save_uploaded_files, h1]⟩,
        .inr (by simp [save_uploaded_files, h1])⟩
    · by_cases h2 : (snapshotName.isEmpty || (pyStrip snapshotName).isEmpty) = true
      · exact ⟨⟨"Snapshot name is required", by simp [save_uploaded_files, h1, h2]⟩,
          .inr (by simp [save_uploaded_files, h1, h2])⟩
      · by_cases h3 : snapshotDirEscapes snapshotName = true
        · exact ⟨⟨"Invalid snapshot name: path traversal detected",
              by simp [save_uploaded_files, h1, h2, h3]⟩,
            .inr (by simp [save_uploaded_files, h1, h2, h3])⟩
        · obtain ⟨e, he⟩ := saveLoop_error_of_bad
            (match init with | .absent => [] | .present fs => fs) 0 hbad
          exact ⟨⟨"Failed to save configuration files: " ++ e,
              by simp [save_uploaded_files, h1, h2, h3, he]⟩,
            .inl (by simp [save_uploaded_files, h1, h2, h3, he])⟩
  · intro fs hres hinit
    subst hinit
    by_cases h1 : files.isEmpty = true
    · simp [save_uploaded_files, h1] at hres
    · by_cases h2 : snapshotName.isEmpty || (pyStrip snapshotName).isEmpty
      · simp [save_uploaded_files, h1, h2] at hres
      · by_cases h3 : snapshotDirEscapes snapshotName = true
        · simp [save_uploaded_files, h1, h2, h3] at hres
        · cases hl : saveLoop files [] 0 with
          | error e => simp [save_uploaded_files, h1, h2, h3, hl] at hres
          | ok fs' =>
            have hfs : fs' = fs := by
              simpa [save_uploaded_files, h1, h2, h3, hl] using hres
            subst hfs
            intro p hp
            rcases saveLoop_ok_names hl p hp with hmem | hsrc
            · cases hmem
            · exact hsrc

/-- Witness for C2 (amended): a batch containing a name with a space is
rejected outright and the staging directory is not left behind. -/
theorem c2_witness :
    (∃ err, (save_uploaded_files "snap1" [⟨some "bad name.cfg", 3⟩] .absent).result
        = .error err) ∧
    ((save_uploaded_files "snap1" [⟨some "bad name.cfg", 3⟩] .absent).dir = .absent ∨
      (save_uploaded_files "snap1" [⟨some "bad name.cfg", 3⟩] .absent).dir = .absent) :=
  (c2_batch_reject_and_strip "snap1" [⟨some "bad name.cfg", 3⟩] .absent).1
    ⟨⟨some "bad name.cfg", 3⟩, by simp, "bad name.cfg", rfl, rfl,
      "Invalid filename: bad name.cfg", rfl⟩

/-- Counterexample to C3 as stated: a file with no filename is skipped
by the loop, so a nameless 11 MB file does not abort the operation. -/
theorem c3_counterexample :
    (save_uploaded_files "snap1" [⟨none, 11534336⟩] .absent).result = .ok [] ∧
    (save_uploaded_files "snap1" [⟨none, 11534336⟩] .absent).dir = .present [] ∧
    11534336 > MAX_FILE_SIZE_BYTES := by
  refine ⟨by decide, by decide, by decide⟩

/-- If some file with a truthy filename exceeds the per-file ceiling,
the save loop raises. -/
theorem saveLoop_error_of_oversize {files : List UploadFile}
    (dirFiles : List (String × Nat)) (total : Nat)
    (hbad : ∃ f ∈ files, pyFalsyName f.filename = false ∧
      f.size > MAX_FILE_SIZE_BYTES) :
    ∃ e, saveLoop files dirFiles total = .error e := by
  induction files generalizing dirFiles total with
  | nil =>
    rcases hbad with ⟨f, hf, _⟩
    cases hf
  | cons f rest ih =>
    rcases hbad with ⟨g, hg, hgf, hgsz⟩
    by_cases hfalsy : pyFalsyName f.filename = true
    · have hg' : g ∈ rest := by
        rcases List.mem_cons.mp hg with rfl | hmem
        · rw [hgf] at hfalsy
          cases hfalsy
        · exact hmem
      obtain ⟨e, he⟩ := ih dirFiles total ⟨g, hg', hgf, hgsz⟩
      exact ⟨e, by simpa [saveLoop, hfalsy] using he⟩
    · cases hs : sanitize_filename (f.filename.getD "") with
      | error e => exact ⟨e, by simp [saveLoop, hfalsy, hs]⟩
      | ok name =>
        by_cases hsz : f.size > MAX_FILE_SIZE_BYTES
        · exact ⟨"File " ++ name ++ " exceeds maximum size limit",
            by simp [saveLoop, hfalsy, hs, hsz]⟩
        · by_cases htot : total + f.size > MAX_TOTAL_SIZE_BYTES
          · exact ⟨"Total upload size exceeds maximum limit",
              by simp [saveLoop, hfalsy, hs, hsz, htot]⟩
          · have hg' : g ∈ rest := by
              rcases List.mem_cons.mp hg with rfl | hmem
              · exact absurd hgsz hsz
              · exact hmem
            obtain ⟨e, he⟩ := ih (writeFile dirFiles name f.size) (total + f.size)
              ⟨g, hg', hgf, hgsz⟩
            exact ⟨e, by simpa [saveLoop, hfalsy, hs, hsz, htot] using he⟩

/-- A successful save loop keeps the running total (the sizes of all
files with a truthy filename) within the cumulative ceiling. -/
theorem saveLoop_ok_total {files : List UploadFile}
    {dirFiles fs : List (String × Nat)} {total : Nat}
    (hle : total ≤ MAX_TOTAL_SIZE_BYTES)
    (h : saveLoop files dirFiles total = .ok fs) :
    total + ((files.filter (fun f => !pyFalsyName f.filename)).map
      UploadFile.size).sum ≤ MAX_TOTAL_SIZE_BYTES := by
  induction files generalizing dirFiles total with
  | nil => simpa using hle
  | cons f rest ih =>
    by_cases hfalsy : pyFalsyName f.filename = true
    · have h' : saveLoop rest dirFiles total = .ok fs := by
        simpa [saveLoop, hfalsy] using h
      simpa [hfalsy] using ih hle h'
    · cases hs : sanitize_filename (f.filename.getD "") with
      | error e => simp [saveLoop, hfalsy, hs] at h
      | ok name =>
        by_cases hsz : f.size > MAX_FILE_SIZE_BYTES
        · simp [saveLoop, hfalsy, hs, hsz] at h
        · by_cases htot : total + f.size > MAX_TOTAL_SIZE_BYTES
          · simp [saveLoop, hfalsy, hs, hsz, htot] at h
          · have h' : saveLoop rest (writeFile dirFiles name f.size)
                (total + f.size) = .ok fs := by
              simpa [saveLoop, hfalsy, hs, hsz, htot] using h
            have hle' : total + f.size ≤ MAX_TOTAL_SIZE_BYTES :=
              Nat.le_of_not_lt htot
            have := ih hle' h'
            have hb : pyFalsyName f.filename = false :=
              Bool.eq_false_iff.mpr hfalsy
            simpa [hb, ← Nat.add_assoc] using this

/-- C3 (amended): among files with a truthy filename (nameless files are
skipped and not counted), any file over 10 MB aborts the whole operation
with an error and the staging directory is removed; a batch whose
counted files together exceed 100 MB likewise aborts with an error and
cleanup; a successful save implies the cumulative size of all counted
files is within 100 MB. -/
theorem c3_size_ceilings (snapshotName : String) (files : List UploadFile)
    (init : DirState) :
    ((∃ f ∈ files, pyFalsyName f.filename = false ∧
        f.size > MAX_FILE_SIZE_BYTES) →
      (∃ err, (save_uploaded_files snapshotName files init).result = .error err) ∧
      ((save_uploaded_files snapshotName files init).dir = .absent ∨
        (save_uploaded_files snapshotName files init).dir = init)) ∧
    (((files.filter (fun f => !pyFalsyName f.filename)).map
        UploadFile.size).sum > MAX_TOTAL_SIZE_BYTES →
      (∃ err, (save_uploaded_files snapshotName files init).result = .error err) ∧
      ((save_uploaded_files snapshotName files init).dir = .absent ∨
        (save_uploaded_files snapshotName files init).dir = init)) ∧
    (∀ fs, (save_uploaded_files snapshotName files init).result = .ok fs →
      ((files.filter (fun f => !pyFalsyName f.filename)).map
        UploadFile.size).sum ≤ MAX_TOTAL_SIZE_BYTES) := by
  refine ⟨?_, ?_, ?_⟩
  · intro hbad
    by_cases h1 : files.isEmpty = true
    · exact ⟨⟨"No configuration files provided", by simp [save_uploaded_files, h1]⟩,
        .inr (by simp [save_uploaded_files, h1])⟩
    · by_cases h2 : (snapshotName.isEmpty || (pyStrip snapshotName).isEmpty) = true
      · exact ⟨⟨"Snapshot name is required", by simp [save_uploaded_files, h1, h2]⟩,
          .inr (by simp [save_uploaded_files, h1, h2])⟩
      · by_cases h3 : snapshotDirEscapes snapshotName = true
        · exact ⟨⟨"Invalid snapshot name: path traversal detected",
              by simp [save_uploaded_files, h1, h2, h3]⟩,
            .inr (by simp [save_uploaded_files, h1, h2, h3])⟩
        · obtain ⟨e, he⟩ := saveLoop_error_of_oversize
            (match init with | .absent => [] | .present fs => fs) 0 hbad
          exact ⟨⟨"Failed to save configuration files: " ++ e,
              by simp [save_uploaded_files, h1, h2, h3, he]⟩,
            .inl (by simp [save_uploaded_files, h1, h2, h3, he])⟩
  · intro hsum
    by_cases h1 : files.isEmpty = true
    · exact ⟨⟨"No configuration files provided", by simp [save_uploaded_files, h1]⟩,
        .inr (by simp [save_uploaded_files, h1])⟩
    · by_cases h2 : (snapshotName.isEmpty || (pyStrip snapshotName).isEmpty) = true
      · exact ⟨⟨"Snapshot name is required", by simp [save_uploaded_files, h1, h2]⟩,
          .inr (by simp [save_uploaded_files, h1, h2])⟩
      · by_cases h3 : snapshotDirEscapes snapshotName = true
        · exact ⟨⟨"Invalid snapshot name: path traversal detected",
              by simp [save_uploaded_files, h1, h2, h3]⟩,
            .inr (by simp [save_uploaded_files, h1, h2, h3])⟩
        · cases init with
          | absent =>
            cases hl : saveLoop files [] 0 with
            | ok fs' =>
              exfalso
              have hle := saveLoop_ok_total (Nat.zero_le _) hl
              omega
            | error e =>
              exact ⟨⟨"Failed to save configuration files: " ++ e,
                  by simp [save_uploaded_files, h1, h2, h3, hl]⟩,
                .inl (by simp [save_uploaded_files, h1, h2, h3, hl])⟩
          | present prev =>
            cases hl : saveLoop files prev 0 with
            | ok fs' =>
              exfalso
              have hle := saveLoop_ok_total (Nat.zero_le _) hl
              omega
            | error e =>
              exact ⟨⟨"Failed to save configuration files: " ++ e,
                  by simp [save_uploaded_files, h1, h2, h3, hl]⟩,
                .inl (by simp [save_uploaded_files, h1, h2, h3, hl])⟩
  · intro fs hres
    by_cases h1 : files.isEmpty = true
    · simp [save_uploaded_files, h1] at hres
    · by_cases h2 : (snapshotName.isEmpty || (pyStrip snapshotName).isEmpty) = true
      · simp [save_uploaded_files, h1, h2] at hres
      · by_cases h3 : snapshotDirEscapes snapshotName = true
        · simp [save_uploaded_files, h1, h2, h3] at hres
        · cases init with
          | absent =>
            cases hl : saveLoop files [] 0 with
            | error e => simp [save_uploaded_files, h1, h2, h3, hl] at hres
            | ok fs' =>
              have := saveLoop_ok_total (Nat.zero_le _) hl
              simpa using this
          | present prev =>
            cases hl : saveLoop files prev 0 with
            | error e => simp [save_uploaded_files, h1, h2, h3, hl] at hres
            | ok fs' =>
              have := saveLoop_ok_total (Nat.zero_le _) hl
              simpa using this

/-- Witness for C3 (amended): a named 10 MB + 1 byte file aborts the
upload with the staging directory removed, and so does a batch of eleven
named 10 MB files whose running total exceeds the cumulative ceiling. -/
theorem c3_witness :
    ((∃ err, (save_uploaded_files "snap1" [⟨some "big.cfg", 10485761⟩] .absent).result
        = .error err) ∧
      ((save_uploaded_files "snap1" [⟨some "big.cfg", 10485761⟩] .absent).dir = .absent ∨
        (save_uploaded_files "snap1" [⟨some "big.cfg", 10485761⟩] .absent).dir = .absent)) ∧
    ((∃ err, (save_uploaded_files "snap1" elevenBigFiles .absent).result
        = .error err) ∧
      ((save_uploaded_files "snap1" elevenBigFiles .absent).dir = .absent ∨
        (save_uploaded_files "snap1" elevenBigFiles .absent).dir = .absent)) :=
  ⟨(c3_size_ceilings "snap1" [⟨some "big.cfg", 10485761⟩] .absent).1
      ⟨⟨some "big.cfg", 10485761⟩, by simp, by decide, by decide⟩,
    (c3_size_ceilings "snap1" elevenBigFiles .absent).2.1 (by decide)⟩

/-- C4 (code bug): the validator accepts `"ab\n"` even though `'\n'` is
outside `[A-Za-z0-9_-]`, because Python `$` also matches just before a
trailing newline; an interior bad character is still rejected with 400,
as is a name over 100 characters. -/
theorem c4_trailing_newline_accepted :
    validate_snapshot_name "ab\n" = .ok () ∧
    '\n' ∈ "ab\n".toList ∧ snapshotNameCharOk '\n' = false ∧
    validate_snapshot_name "a b" = .error 400 ∧
    validate_snapshot_name "" = .error 400 := by
  refine ⟨by decide, by decide, by decide, by decide, by decide⟩

/-- C5: every normalizer maps the empty answer table to the empty list
(and, being a total function of the row list, cannot raise). -/
theorem c5_normalizers_empty_table :
    parse_devices [] = [] ∧ parse_interfaces [] = [] ∧
    parse_layer3_edges [] = [] ∧ parse_flow_traces [] = [] ∧
    parse_acl_results [] = [] ∧ parse_route_entries [] = [] :=
  ⟨rfl, rfl, rfl, rfl, rfl, rfl⟩

/-- C6: the derived node status is `"active"` iff some interface is
active, `"inactive"` iff interfaces exist and none is active, and
`"unknown"` iff the interface list is empty; and `get_node_details`
stores exactly this derived value in `NodeDetail.status`. -/
theorem c6_status_derivation :
    (∀ interfaces : List NodeIface,
      (derive_status interfaces = "active" ↔
        interfaces.any (fun i => i.active) = true) ∧
      (derive_status interfaces = "inactive" ↔
        (interfaces ≠ [] ∧ interfaces.all (fun i => !i.active) = true)) ∧
      (derive_status interfaces = "unknown" ↔ interfaces = [])) ∧
    (∀ (sess : TopoSession) (snap host net : String) (nd : NodeDetail),
      get_node_details sess snap host net = .ok nd →
      nd.status = derive_status nd.interfaces) := by
  constructor
  · intro l
    match l with
    | [] => refine ⟨by decide, by decide, by decide⟩
    | a :: as =>
      by_cases h : (a :: as).any (fun i => i.active) = true
      · have hd : derive_status (a :: as) = "active" := by
          simp [derive_status, h]
        refine ⟨?_, ?_, ?_⟩
        · simp [hd, h]
        · rw [hd]
          constructor
          · intro hh
            exact absurd hh (by decide)
          · rintro ⟨hne, hall⟩
            exfalso
            rcases List.any_eq_true.mp h with ⟨i, hi, hia⟩
            have hfalse := List.all_eq_true.mp hall i hi
            simp only [Bool.not_eq_true'] at hfalse
            simp only [hfalse] at hia
            cases hia
        · rw [hd]
          constructor
          · intro hh
            exact absurd hh (by decide)
          · intro hh
            exact absurd hh (List.cons_ne_nil a as)
      · have hd : derive_status (a :: as) = "inactive" := by
          simp [derive_status, h]
        refine ⟨?_, ?_, ?_⟩
        · rw [hd]
          constructor
          · intro hh
            exact absurd hh (by decide)
          · intro hh
            exact absurd hh h
        · rw [hd]
          constructor
          · intro _
            refine ⟨List.cons_ne_nil a as, ?_⟩
            have h' : (a :: as).any (fun i => i.active) = false :=
              Bool.eq_false_iff.mpr h
            rw [List.all_eq_true]
            intro i hi
            have hni := List.any_eq_false.mp h' i hi
            simp only [Bool.not_eq_true'] at hni ⊢
            exact Bool.eq_false_iff.mpr hni
          · intro _
            rfl
        · rw [hd]
          constructor
          · intro hh
            exact absurd hh (by decide)
          · intro hh
            exact absurd hh (List.cons_ne_nil a as)
  · intro sess snap host net nd hok
    unfold get_node_details at hok
    split at hok
    · cases hok
    · split at hok
      · cases hok
      · split at hok
        · cases hok
        · split at hok
          · cases hok
          · split at hok
            · cases hok
            · dsimp only at hok
              cases hok
              rfl

/-- Witness for C6: the empty interface list derives status
`"unknown"`. -/
theorem c6_witness : derive_status [] = "unknown" :=
  (c6_status_derivation.1 []).2.2.mpr rfl

/-- C7: every `NodeDetail` built by `get_node_details` has
`interface_count` equal to the length of its `interfaces` list
(whatever the engine answered), and a node-inventory answer with zero
rows makes `get_node_details` raise the not-found condition instead of
producing a record. -/
theorem c7_interface_count_sync (sess : TopoSession) (snap host net : String) :
    (∀ nd, get_node_details sess snap host net = .ok nd →
      nd.interface_count = nd.interfaces.length) ∧
    (sess.setNetwork net = .ok () → sess.setSnapshot snap = .ok () →
      sess.nodePropertiesFor host = .ok [] →
      get_node_details sess snap host net =
        .error (.notFound
          ("Node '" ++ host ++ "' not found in snapshot '" ++ snap ++ "'"))) := by
  constructor
  · intro nd hok
    unfold get_node_details at hok
    split at hok
    · cases hok
    · split at hok
      · cases hok
      · split at hok
        · cases hok
        · split at hok
          · cases hok
          · split at hok
            · cases hok
            · dsimp only at hok
              cases hok
              rfl
  · intro hn hs hq
    unfold get_node_details
    rw [hn]
    dsimp only
    rw [hs]
    dsimp only
    rw [hq]

/-- Witness for C7: a session that knows no nodes makes
`get_node_details` return the not-found error. -/
theorem c7_witness :
    get_node_details emptyTopoSession "snap1" "router1" "default" =
      .error (.notFound "Node 'router1' not found in snapshot 'snap1'") :=
  (c7_interface_count_sync emptyTopoSession "snap1" "router1" "default").2 rfl rfl rfl

/-- Counterexample to C8 as stated: a row whose two endpoint cells name
the same interface is not dropped — the normalizer produces an edge
whose source and target are the same interface, so produced edges need
not reference two distinct interfaces. -/
theorem c8_counterexample :
    parse_layer3_edges [selfLoopRow] = [selfLoopEdge] ∧
    selfLoopEdge.source_hostname = selfLoopEdge.target_hostname ∧
    selfLoopEdge.source_interface = selfLoopEdge.target_interface := by
  refine ⟨by decide, by decide, by decide⟩

/-- C8 (amended): rows missing either endpoint cell are skipped (exactly
the rows with both cells present yield edges), and each two-ended row
yields the edge whose endpoints are copied from its cells with each
optional IP looked up in the corresponding side-keyed map; distinctness
of the two interfaces is not checked. -/
theorem c8_edges_endpoints (rows : List EdgeRow) :
    (parse_layer3_edges rows).length =
      (rows.filter (fun r => r.interface.isSome && r.remoteInterface.isSome)).length ∧
    (∀ r ∈ rows, ∀ i1 i2, r.interface = some i1 → r.remoteInterface = some i2 →
      ({ source_hostname := i1.hostname, source_interface := i1.interface,
         target_hostname := i2.hostname, target_interface := i2.interface,
         link_type := "layer3",
         source_ip := r.ips.bind (fun m => m.lookup (ifaceStr i1)),
         target_ip := r.remoteIps.bind (fun m => m.lookup (ifaceStr i2)),
         bandwidth := none, protocol := none } : Edge)
        ∈ parse_layer3_edges rows) := by
  induction rows with
  | nil =>
    refine ⟨rfl, ?_⟩
    intro r hr
    cases hr
  | cons r0 rest ih =>
    refine ⟨?_, ?_⟩
    · rcases h1 : r0.interface with _ | i1
      · simpa [parse_layer3_edges, List.filterMap_cons, List.filter_cons, h1]
          using ih.1
      · rcases h2 : r0.remoteInterface with _ | i2
        · simpa [parse_layer3_edges, List.filterMap_cons, List.filter_cons, h1, h2]
            using ih.1
        · simpa [parse_layer3_edges, List.filterMap_cons, List.filter_cons, h1, h2]
            using ih.1
    · intro r hr i1 i2 hi1 hi2
      rcases List.mem_cons.mp hr with rfl | hmem
      · have hcons : parse_layer3_edges (r :: rest) =
            ({ source_hostname := i1.hostname, source_interface := i1.interface,
               target_hostname := i2.hostname, target_interface := i2.interface,
               link_type := "layer3",
               source_ip := r.ips.bind (fun m => m.lookup (ifaceStr i1)),
               target_ip := r.remoteIps.bind (fun m => m.lookup (ifaceStr i2)),
               bandwidth := none, protocol := none } : Edge)
              :: parse_layer3_edges rest := by
          simp [parse_layer3_edges, List.filterMap_cons, hi1, hi2]
        rw [hcons]
        exact List.mem_cons_self _ _
      · have hmem' := ih.2 r hmem i1 i2 hi1 hi2
        rcases h1 : r0.interface with _ | j1
        · have hskip : parse_layer3_edges (r0 :: rest) = parse_layer3_edges rest := by
            simp [parse_layer3_edges, List.filterMap_cons, h1]
          rw [hskip]
          exact hmem'
        · rcases h2 : r0.remoteInterface with _ | j2
          · have hskip : parse_layer3_edges (r0 :: rest) = parse_layer3_edges rest := by
              simp [parse_layer3_edges, List.filterMap_cons, h1, h2]
            rw [hskip]
            exact hmem'
          · have hcons : parse_layer3_edges (r0 :: rest) =
                ({ source_hostname := j1.hostname, source_interface := j1.interface,
                   target_hostname := j2.hostname, target_interface := j2.interface,
                   link_type := "layer3",
                   source_ip := r0.ips.bind (fun m => m.lookup (ifaceStr j1)),
                   target_ip := r0.remoteIps.bind (fun m => m.lookup (ifaceStr j2)),
                   bandwidth := none, protocol := none } : Edge)
                  :: parse_layer3_edges rest := by
              simp [parse_layer3_edges, List.filterMap_cons, h1, h2]
            rw [hcons]
            exact List.mem_cons_of_mem _ hmem'

/-- Witness for C8 (amended): a two-ended row produces exactly the edge
with both endpoints and both side-keyed IPs populated. -/
theorem c8_witness : twoEndedEdge ∈ parse_layer3_edges [twoEndedRow] :=
  (c8_edges_endpoints [twoEndedRow]).2 twoEndedRow (List.mem_cons_self _ _)
    ⟨"r1", "Gig0"⟩ ⟨"r2", "Gig1"⟩ rfl rfl

/-- Counterexample to C9 as stated: when the primary version channel
answers with a non-200 status, the fallback channel is *not* consulted —
the version is reported as `"unknown"` although `get_info()` would have
supplied a live version, and the static fallback value is not used
either. -/
theorem c9_counterexample :
    health_check http500Env = .ok ⟨"healthy", "1.0.0", "unknown"⟩ ∧
    http500Env.getInfo = .ok [("Batfish version", "2099.01.01")] ∧
    get_info_version [("Batfish version", "2099.01.01")] = "2099.01.01" ∧
    "unknown" ≠ "2099.01.01" ∧ "unknown" ≠ "2025.07.07.2423" := by
  refine ⟨by decide, by decide, by decide, by decide, by decide⟩

/-- C9 (amended): when the session is usable, `health_check` always
reports healthy regardless of version retrieval; the `get_info`
fallback is consulted exactly when the HTTP request raises, the static
fallback value is used when both channels raise, and a non-success HTTP
answer yields `"unknown"` without consulting the fallback; a session
failure raises. -/
theorem c9_health_check_fallbacks (env : HealthEnv) :
    (env.sessionOk = .ok () →
      ((∃ rep, health_check env = .ok rep ∧ rep.status = "healthy") ∧
       (∀ e info, env.httpVersion = .error e → env.getInfo = .ok info →
         health_check env = .ok ⟨"healthy", "1.0.0", get_info_version info⟩) ∧
       (∀ e e2, env.httpVersion = .error e → env.getInfo = .error e2 →
         health_check env = .ok ⟨"healthy", "1.0.0", "2025.07.07.2423"⟩) ∧
       (∀ resp, env.httpVersion = .ok resp → (resp.statusCode == 200) = false →
         health_check env = .ok ⟨"healthy", "1.0.0", "unknown"⟩))) ∧
    (∀ e, env.sessionOk = .error e →
      health_check env = .error "Batfish health check failed") := by
  constructor
  · intro hok
    refine ⟨?_, ?_, ?_, ?_⟩
    · unfold health_check
      rw [hok]
      exact ⟨_, rfl, rfl⟩
    · intro e info he hi
      unfold health_check
      rw [hok]
      dsimp only
      rw [he]
      dsimp only
      rw [hi]
    · intro e e2 he hi
      unfold health_check
      rw [hok]
      dsimp only
      rw [he]
      dsimp only
      rw [hi]
    · intro resp hresp hcode
      unfold health_check
      rw [hok]
      dsimp only
      rw [hresp]
      simp [hcode]
  · intro e he
    unfold health_check
    rw [he]

/-- Witness for C9 (amended): HTTP request raising, `get_info` working:
the reported version is the fallback channel's. -/
theorem c9_witness :
    health_check httpDownEnv =
      .ok ⟨"healthy", "1.0.0", get_info_version [("Batfish version", "2099.01.01")]⟩ :=
  ((c9_health_check_fallbacks httpDownEnv).1 rfl).2.1 "timeout"
    [("Batfish version", "2099.01.01")] rfl rfl

/-- Looking up a key absent from an association list finds the entry
appended for it. -/
theorem dictGet_append_single (m : List (String × Nat)) (h : String)
    (hm : dictGet m h = none) :
    dictGet (m ++ [(h, 1)]) h = some 1 := by
  induction m with
  | nil => simp [dictGet]
  | cons p rest ih =>
    obtain ⟨k, v⟩ := p
    cases hk : k == h with
    | true => simp [dictGet, hk] at hm
    | false =>
      simp only [dictGet, hk] at hm
      simp only [List.cons_append, dictGet, hk]
      exact ih hm

/-- Bumping every entry of a key to `n + 1` updates what lookup finds
when it previously found `n`. -/
theorem dictGet_map_bump (m : List (String × Nat)) (h : String) (n : Nat)
    (hm : dictGet m h = some n) :
    dictGet (m.map (fun p => if p.1 == h then (p.1, n + 1) else p)) h
      = some (n + 1) := by
  induction m with
  | nil => simp [dictGet] at hm
  | cons p rest ih =>
    obtain ⟨k, v⟩ := p
    cases hk : k == h with
    | true =>
      simp only [List.map_cons]
      rw [if_pos hk]
      simp only [dictGet, hk]
    | false =>
      simp only [dictGet, hk] at hm
      simp only [List.map_cons]
      rw [if_neg (by simp [hk])]
      simp only [dictGet, hk]
      exact ih hm

/-- `addCount` increments what lookup-with-default finds for the added
key. -/
theorem addCount_dictGet_self (m : List (String × Nat)) (h : String) :
    (dictGet (addCount m h) h).getD 0 = ((dictGet m h).getD 0) + 1 := by
  unfold addCount
  cases hm : dictGet m h with
  | none =>
    dsimp only
    rw [dictGet_append_single m h hm]
    rfl
  | some n =>
    dsimp only
    rw [dictGet_map_bump m h n hm]
    rfl

/-- `addCount` leaves lookups of other keys unchanged. -/
theorem addCount_dictGet_other (m : List (String × Nat)) (h q : String)
    (hne : (h == q) = false) :
    dictGet (addCount m h) q = dictGet m q := by
  unfold addCount
  cases hm : dictGet m h with
  | none =>
    clear hm
    dsimp only
    induction m with
    | nil => simp [dictGet, hne]
    | cons p rest ih =>
      obtain ⟨k, v⟩ := p
      cases hk : k == q with
      | true => simp [List.cons_append, dictGet, hk]
      | false =>
        simp only [List.cons_append, dictGet, hk]
        exact ih
  | some n =>
    clear hm
    dsimp only
    induction m with
    | nil => rfl
    | cons p rest ih =>
      obtain ⟨k, v⟩ := p
      simp only [List.map_cons]
      cases hkh : k == h with
      | true =>
        rw [show (if ((true : Bool) = true) then (k, n + 1) else (k, v)) = (k, n + 1)
          from if_pos rfl]
        cases hk : k == q with
        | true =>
          exfalso
          have h1 : k = h := by simpa using hkh
          have h2 : k = q := by simpa using hk
          rw [h1] at h2
          have h3 : (h == q) = true := by simp [h2]
          rw [hne] at h3
          cases h3
        | false =>
          simp only [dictGet, hk]
          exact ih
      | false =>
        rw [show (if ((false : Bool) = true) then (k, n + 1) else (k, v)) = (k, v)
          from if_neg Bool.false_ne_true]
        cases hk : k == q with
        | true => simp [dictGet, hk]
        | false =>
          simp only [dictGet, hk]
          exact ih

/-- The `interface_counts` dict agrees with counting interfaces by
hostname. -/
theorem interfaceCounts_dictGet (ifaces : List TopoInterface) (h : String) :
    (dictGet (interfaceCounts ifaces) h).getD 0 =
      (ifaces.filter (fun i => i.hostname == h)).length := by
  suffices H : ∀ (l : List TopoInterface) (m : List (String × Nat)),
      (dictGet (l.foldl (fun m i => addCount m i.hostname) m) h).getD 0 =
        ((dictGet m h).getD 0) + (l.filter (fun i => i.hostname == h)).length by
    simpa [interfaceCounts, dictGet] using H ifaces []
  intro l
  induction l with
  | nil => intro m; simp
  | cons i rest ih =>
    intro m
    simp only [List.foldl_cons]
    rw [ih (addCount m i.hostname)]
    cases hih : i.hostname == h with
    | true =>
      have heq : i.hostname = h := by simpa using hih
      rw [heq, addCount_dictGet_self]
      simp only [List.filter_cons, hih, if_pos]
      simp only [List.length_cons]
      omega
    | false =>
      rw [addCount_dictGet_other m i.hostname h hih]
      have hne : i.hostname ≠ h := by simpa using hih
      simp [List.filter_cons, hne]

/-- C10: `get_devices` hard-codes `interfaces_count := 0` on every
device it returns; `get_topology`'s count-overwriting step sets each
device's `interfaces_count` to the number of fetched interface records
whose hostname matches that device. -/
theorem c10_interface_counts :
    (∀ rows : List NodeRow, ∀ d ∈ parse_devices rows, d.interfaces_count = 0) ∧
    (∀ (devices : List Device) (ifaces : List TopoInterface),
      update_interface_counts devices ifaces =
        devices.map (fun d =>
          { d with interfaces_count :=
              (ifaces.filter (fun i => i.hostname == d.hostname)).length })) := by
  constructor
  · intro rows d hd
    simp only [parse_devices, List.mem_map] at hd
    rcases hd with ⟨row, _, rfl⟩
    rfl
  · intro devices ifaces
    unfold update_interface_counts
    dsimp only
    have hfun : (fun d : Device =>
        { d with interfaces_count :=
            (dictGet (interfaceCounts ifaces) d.hostname).getD 0 }) =
        (fun d : Device =>
          { d with interfaces_count :=
              (ifaces.filter (fun i => i.hostname == d.hostname)).length }) :=
      funext fun d => by rw [interfaceCounts_dictGet]
    rw [hfun]

/-- Witness for C10: the device parsed from a concrete inventory row has
`interfaces_count = 0`. -/
theorem c10_witness : ciscoDevice.interfaces_count = 0 :=
  c10_interface_counts.1 [ciscoRow] ciscoDevice (by decide)

end BatfishVis
